import Mathlib

/-!
Shallow embedding of the weather-calculation MCP server's pure calculation
functions (`src/examples/weather_calculations_server.py`) and of the two demo
clients' JSON-RPC plumbing (`weather_calculations_stdio_client.py`,
`weather_calculations_http_client.py`), together with theorems settling the
frozen claims about them.

Conventions of the embedding:
* Python floats are modelled as real numbers (`ℝ`); every arithmetic
  expression is transcribed literally from the source.
* `round(x, d)` (Python's builtin, used by the server to shape its JSON
  output) is modelled by `pyRound d`, rounding to `d` decimal places.
  Python rounds half-to-even while Mathlib's `round` rounds half-up; the two
  agree except at exact ties, and no theorem below depends on tie behaviour
  (only on the `1/(2·10^d)` error bound, endpoints and monotonicity, which
  are identical for both tie rules).
* `math.sqrt`, `math.exp`, `math.sin`, `**` etc. become their exact real
  counterparts (`Real.sqrt`, `Real.exp`, `Real.rpow`, ...).
-/

namespace WeatherCalc

/-- Model of Python's `round(x, d)`: round to `d` decimal places. -/
noncomputable def pyRound (d : ℕ) (x : ℝ) : ℝ :=
  ((round (x * 10 ^ d) : ℤ) : ℝ) / 10 ^ d

theorem pyRound_sub_le (d : ℕ) (x : ℝ) : |pyRound d x - x| ≤ 1 / (2 * 10 ^ d) := by
  have hpow : (0:ℝ) < 10 ^ d := by positivity
  have h := abs_sub_round (x * 10 ^ d)
  have hx : pyRound d x - x = (((round (x * 10 ^ d) : ℤ) : ℝ) - x * 10 ^ d) / 10 ^ d := by
    field_simp [pyRound]
    ring
  rw [hx, abs_div, abs_of_pos hpow]
  have h' : |((round (x * 10 ^ d) : ℤ) : ℝ) - x * 10 ^ d| ≤ 1 / 2 := by
    rw [abs_sub_comm]
    exact h
  calc |((round (x * 10 ^ d) : ℤ) : ℝ) - x * 10 ^ d| / 10 ^ d
      ≤ (1 / 2) / 10 ^ d := by gcongr
    _ = 1 / (2 * 10 ^ d) := by ring

theorem pyRound_mono (d : ℕ) {x y : ℝ} (h : x ≤ y) : pyRound d x ≤ pyRound d y := by
  have hpow : (0:ℝ) < 10 ^ d := by positivity
  have hr : round (x * 10 ^ d) ≤ round (y * 10 ^ d) := by
    rw [round_eq, round_eq]
    exact Int.floor_mono (by nlinarith)
  unfold pyRound
  gcongr

theorem pyRound_int (d : ℕ) (n : ℤ) : pyRound d ((n : ℤ) : ℝ) = ((n : ℤ) : ℝ) := by
  have hpow : (10:ℝ) ^ d ≠ 0 := by positivity
  have hcast : ((n : ℤ) : ℝ) * 10 ^ d = ((n * 10 ^ d : ℤ) : ℝ) := by push_cast; ring
  unfold pyRound
  rw [hcast, round_intCast]
  push_cast
  field_simp

theorem pyRound_idem (d : ℕ) (x : ℝ) : pyRound d (pyRound d x) = pyRound d x := by
  have hpow : (10:ℝ) ^ d ≠ 0 := by positivity
  unfold pyRound
  rw [div_mul_cancel₀ _ hpow, round_intCast]

/-- `_celsius_to_fahrenheit`: `fahrenheit = (celsius * 9/5) + 32`, reported
rounded to 2 decimal places. -/
noncomputable def celsius_to_fahrenheit (celsius : ℝ) : ℝ :=
  pyRound 2 (celsius * 9 / 5 + 32)

/-- `_fahrenheit_to_celsius`: `celsius = (fahrenheit - 32) * 5/9`, reported
rounded to 2 decimal places. -/
noncomputable def fahrenheit_to_celsius (fahrenheit : ℝ) : ℝ :=
  pyRound 2 ((fahrenheit - 32) * 5 / 9)

/-- C2: composing `celsius_to_fahrenheit` with `fahrenheit_to_celsius` returns
the original celsius value up to the tolerance of the two 2-decimal roundings:
the inner rounding contributes at most `(1/200)·(5/9)` and the outer at most
`1/200`, in total `7/900 < 0.008`. -/
theorem C2_roundtrip (c : ℝ) :
    |fahrenheit_to_celsius (celsius_to_fahrenheit c) - c| ≤ 7 / 900 := by
  unfold fahrenheit_to_celsius celsius_to_fahrenheit
  have h1 := pyRound_sub_le 2 (c * 9 / 5 + 32)
  have h2 := pyRound_sub_le 2 ((pyRound 2 (c * 9 / 5 + 32) - 32) * 5 / 9)
  have key : (pyRound 2 (c * 9 / 5 + 32) - 32) * 5 / 9 - c
      = (pyRound 2 (c * 9 / 5 + 32) - (c * 9 / 5 + 32)) * (5 / 9) := by ring
  have tri := abs_sub_le (pyRound 2 ((pyRound 2 (c * 9 / 5 + 32) - 32) * 5 / 9))
    ((pyRound 2 (c * 9 / 5 + 32) - 32) * 5 / 9) c
  rw [key, abs_mul] at tri
  have h59 : |(5 / 9 : ℝ)| = 5 / 9 := by norm_num [abs_of_pos]
  rw [h59] at tri
  have hmul : |pyRound 2 (c * 9 / 5 + 32) - (c * 9 / 5 + 32)| * (5 / 9)
      ≤ (1 / (2 * 10 ^ 2)) * (5 / 9) := by
    exact mul_le_mul_of_nonneg_right h1 (by norm_num)
  norm_num at h1 h2 hmul tri ⊢
  linarith

/-- The `HI` variable of `_calculate_heat_index`: the Rothfusz regression
polynomial before any humidity adjustment. -/
noncomputable def rothfusz_HI (T R : ℝ) : ℝ :=
  -42.379 + 2.04901523 * T + 10.14333127 * R - 0.22475541 * T * R
    - 6.83783e-3 * T ^ 2 - 5.481717e-2 * R ^ 2 + 1.22874e-3 * T ^ 2 * R
    + 8.5282e-4 * T * R ^ 2 - 1.99e-6 * T ^ 2 * R ^ 2

/-- The internal `heat_index` value of `_calculate_heat_index` (Rothfusz
regression with the low- and high-humidity adjustments), before the output
rounding `round(heat_index, 1)`. -/
noncomputable def heat_index_val (T R : ℝ) : ℝ :=
  if T < 80 then T
  else
    if R < 13 ∧ 80 ≤ T ∧ T ≤ 112 then
      rothfusz_HI T R - ((13 - R) / 4) * Real.sqrt ((17 - |T - 95|) / 17)
    else if 85 < R ∧ 80 ≤ T ∧ T ≤ 87 then
      rothfusz_HI T R + ((R - 85) / 10) * ((87 - T) / 5)
    else
      rothfusz_HI T R

/-- The `heat_index_f` field of `_calculate_heat_index`'s JSON result:
`round(heat_index, 1)`. -/
noncomputable def heat_index_f (T R : ℝ) : ℝ :=
  pyRound 1 (heat_index_val T R)

/-- The `result` object of `_calculate_wind_chill`: the internal `wind_chill`
value (before the output rounding) and the `applicable` flag. -/
structure WindChillResult where
  wind_chill : ℝ
  applicable : Bool

/-- `_calculate_wind_chill`: `wind_chill = T` with `applicable = False` when
`T > 50 or V < 3`, else the NWS formula with `applicable = True`. -/
noncomputable def calculate_wind_chill (T V : ℝ) : WindChillResult :=
  if 50 < T ∨ V < 3 then ⟨T, false⟩
  else ⟨35.74 + 0.6215 * T - 35.75 * V ^ (0.16:ℝ) + 0.4275 * T * V ^ (0.16:ℝ), true⟩

/-- The `wind_chill_f` field of `_calculate_wind_chill`'s JSON result:
`round(wind_chill, 1)`. -/
noncomputable def wind_chill_f (T V : ℝ) : ℝ :=
  pyRound 1 (calculate_wind_chill T V).wind_chill

/-- The branch of `_calculate_feels_like` that picks `(feels_like_f, method)`:
heat index when `T_f >= 80`, wind chill when `T_f <= 50 and wind_speed_kmh >=
4.8` (the code's 3 mph equivalent, converting with `0.621371` mph per km/h),
else the direct apparent-temperature formula.  `T_f = T * 9/5 + 32`. -/
noncomputable def feels_like_branch (T humidity wind_speed_kmh : ℝ) : ℝ × String :=
  if 80 ≤ T * 9 / 5 + 32 then
    (heat_index_f (T * 9 / 5 + 32) humidity, "Heat Index")
  else if T * 9 / 5 + 32 ≤ 50 ∧ 4.8 ≤ wind_speed_kmh then
    (wind_chill_f (T * 9 / 5 + 32) (wind_speed_kmh * 0.621371), "Wind Chill")
  else
    (T * 9 / 5 + 32
      + 0.33 * (humidity / 100) * 6.105 * Real.exp (17.27 * T / (237.7 + T))
      - 0.7 * (wind_speed_kmh / 3.6) - 4.0, "Apparent Temperature")

/-- The `result` object of `_calculate_feels_like`'s JSON payload. -/
structure FeelsLikeResult where
  feels_like_c : ℝ
  feels_like_f : ℝ
  method_used : String

/-- `_calculate_feels_like`: wraps `feels_like_branch` with the final
conversion `feels_like_c = (feels_like_f - 32) * 5/9` and the output
roundings `round(·, 1)`. -/
noncomputable def calculate_feels_like (T humidity wind_speed_kmh : ℝ) : FeelsLikeResult :=
  { feels_like_c := pyRound 1 (((feels_like_branch T humidity wind_speed_kmh).1 - 32) * 5 / 9)
    feels_like_f := pyRound 1 (feels_like_branch T humidity wind_speed_kmh).1
    method_used := (feels_like_branch T humidity wind_speed_kmh).2 }

theorem fifteen_rpow_pow : ((15:ℝ) ^ (0.16:ℝ)) ^ (25:ℕ) = 50625 := by
  rw [← Real.rpow_natCast ((15:ℝ) ^ (0.16:ℝ)) 25,
    ← Real.rpow_mul (by norm_num : (0:ℝ) ≤ 15),
    show (0.16:ℝ) * ((25:ℕ):ℝ) = ((4:ℕ):ℝ) by push_cast; norm_num,
    Real.rpow_natCast]
  norm_num

theorem fifteen_rpow_lt : (15:ℝ) ^ (0.16:ℝ) < 1.6 := by
  refine lt_of_pow_lt_pow_left₀ 25 (by norm_num : (0:ℝ) ≤ 1.6) ?_
  rw [fifteen_rpow_pow]
  norm_num

theorem fifteen_rpow_gt : (1.1:ℝ) < (15:ℝ) ^ (0.16:ℝ) := by
  refine lt_of_pow_lt_pow_left₀ 25 (Real.rpow_nonneg (by norm_num) _) ?_
  rw [fifteen_rpow_pow]
  norm_num

/-- C1: `_calculate_feels_like` selects exactly one of the three methods by
the stated inequalities on `T_f = temperature_c * 9/5 + 32`: the heat-index
function iff `T_f >= 80`, the wind-chill function iff `T_f <= 50` and the wind
speed is at least the code's 3 mph equivalent (`wind_speed_kmh >= 4.8`), and
the direct apparent-temperature formula otherwise; the three iffs make the
decision total and unambiguous at the stated boundaries. -/
theorem C1_feels_like_method_selection (T humidity w : ℝ) :
    ((calculate_feels_like T humidity w).method_used = "Heat Index" ↔
      80 ≤ T * 9 / 5 + 32) ∧
    ((calculate_feels_like T humidity w).method_used = "Wind Chill" ↔
      T * 9 / 5 + 32 ≤ 50 ∧ 4.8 ≤ w) ∧
    ((calculate_feels_like T humidity w).method_used = "Apparent Temperature" ↔
      ¬ 80 ≤ T * 9 / 5 + 32 ∧ ¬ (T * 9 / 5 + 32 ≤ 50 ∧ 4.8 ≤ w)) := by
  unfold calculate_feels_like feels_like_branch
  split_ifs with h1 h2
  · exact ⟨iff_of_true rfl h1,
      iff_of_false (by simp) (fun h => absurd h1 (by linarith [h.1])),
      iff_of_false (by simp) (fun h => h.1 h1)⟩
  · exact ⟨iff_of_false (by simp) h1,
      iff_of_true rfl h2,
      iff_of_false (by simp) (fun h => h.2 h2)⟩
  · exact ⟨iff_of_false (by simp) h1,
      iff_of_false (by simp) h2,
      iff_of_true rfl ⟨h1, h2⟩⟩

/-- C3: `_calculate_wind_chill` returns `applicable = false` with the internal
`wind_chill` value equal to the input temperature exactly when `T > 50` or
`V < 3`, and applies the NWS formula (`applicable = true`) otherwise; in
particular at `(60, 15)` it is inapplicable with output `wind_chill_f = 60`,
and at `(30, 15)` it is applicable with output `wind_chill_f < 30`. -/
theorem C3_wind_chill_applicability :
    (∀ T V : ℝ,
      ((calculate_wind_chill T V).applicable = false ∧
        (calculate_wind_chill T V).wind_chill = T ↔ 50 < T ∨ V < 3) ∧
      ((calculate_wind_chill T V).applicable = true ↔ ¬ (50 < T ∨ V < 3))) ∧
    (calculate_wind_chill 60 15).applicable = false ∧
    wind_chill_f 60 15 = 60 ∧
    (calculate_wind_chill 30 15).applicable = true ∧
    wind_chill_f 30 15 < 30 := by
  have hgen : ∀ T V : ℝ,
      ((calculate_wind_chill T V).applicable = false ∧
        (calculate_wind_chill T V).wind_chill = T ↔ 50 < T ∨ V < 3) ∧
      ((calculate_wind_chill T V).applicable = true ↔ ¬ (50 < T ∨ V < 3)) := by
    intro T V
    unfold calculate_wind_chill
    split_ifs with h
    · exact ⟨iff_of_true ⟨rfl, rfl⟩ h, iff_of_false (by simp) (fun hn => hn h)⟩
    · exact ⟨iff_of_false (fun hc => by simpa using hc.1) h, iff_of_true rfl h⟩
  have h60cond : (50:ℝ) < 60 ∨ (15:ℝ) < 3 := Or.inl (by norm_num)
  have h60 : calculate_wind_chill 60 15 = ⟨60, false⟩ := by
    unfold calculate_wind_chill
    rw [if_pos h60cond]
  have h30cond : ¬ ((50:ℝ) < 30 ∨ (15:ℝ) < 3) := by push_neg; norm_num
  have h30 : calculate_wind_chill 30 15 =
      ⟨35.74 + 0.6215 * 30 - 35.75 * (15:ℝ) ^ (0.16:ℝ)
        + 0.4275 * 30 * (15:ℝ) ^ (0.16:ℝ), true⟩ := by
    unfold calculate_wind_chill
    rw [if_neg h30cond]
  refine ⟨hgen, by rw [h60], ?_, by rw [h30], ?_⟩
  · unfold wind_chill_f
    rw [h60]
    simpa using pyRound_int 1 60
  · unfold wind_chill_f
    rw [h30]
    have hub : (35.74 : ℝ) + 0.6215 * 30 - 35.75 * (15:ℝ) ^ (0.16:ℝ)
        + 0.4275 * 30 * (15:ℝ) ^ (0.16:ℝ) < 29.2 := by
      nlinarith [fifteen_rpow_gt]
    have herr := pyRound_sub_le 1 (35.74 + 0.6215 * 30 - 35.75 * (15:ℝ) ^ (0.16:ℝ)
        + 0.4275 * 30 * (15:ℝ) ^ (0.16:ℝ))
    have := abs_le.mp herr
    norm_num at this ⊢
    linarith [this.2]

/-- C4: for every humidity, `_calculate_heat_index` with `temperature_f < 80`
takes the shortcut branch: the internal `heat_index` equals the input
temperature (no regression applied) and the reported `heat_index_f` is just
that temperature rounded to 1 decimal; in particular `heat_index_f 70 50`
is exactly 70. -/
theorem C4_heat_index_below_80 :
    (∀ T R : ℝ, T < 80 → heat_index_val T R = T ∧ heat_index_f T R = pyRound 1 T) ∧
    heat_index_f 70 50 = 70 := by
  have hval : ∀ T R : ℝ, T < 80 → heat_index_val T R = T := by
    intro T R h
    unfold heat_index_val
    rw [if_pos h]
  refine ⟨fun T R h => ⟨hval T R h, ?_⟩, ?_⟩
  · unfold heat_index_f
    rw [hval T R h]
  · unfold heat_index_f
    rw [hval 70 50 (by norm_num)]
    simpa using pyRound_int 1 70

/-- C10: whenever the Fahrenheit-equivalent temperature is at most 50 and
`wind_speed_kmh` lies in the band at or above the code's 4.8 km/h threshold
but below a true 3 mph after the `0.621371` conversion, `_calculate_feels_like`
reports `method_used = "Wind Chill"`, yet the nested `_calculate_wind_chill`
judges itself inapplicable (converted wind speed `< 3` mph), so the wind-chill
formula is never applied and the returned `feels_like_f` is just the input
Fahrenheit-equivalent temperature rounded. -/
theorem C10_wind_chill_dead_band (T humidity w : ℝ)
    (h1 : T * 9 / 5 + 32 ≤ 50) (h2 : 4.8 ≤ w) (h3 : w * 0.621371 < 3) :
    (calculate_feels_like T humidity w).method_used = "Wind Chill" ∧
    (calculate_wind_chill (T * 9 / 5 + 32) (w * 0.621371)).applicable = false ∧
    (calculate_feels_like T humidity w).feels_like_f = pyRound 1 (T * 9 / 5 + 32) := by
  have hno80 : ¬ 80 ≤ T * 9 / 5 + 32 := by linarith
  have hwc : calculate_wind_chill (T * 9 / 5 + 32) (w * 0.621371) =
      ⟨T * 9 / 5 + 32, false⟩ := by
    unfold calculate_wind_chill
    rw [if_pos (Or.inr h3)]
  unfold calculate_feels_like feels_like_branch
  rw [if_neg hno80, if_pos ⟨h1, h2⟩]
  refine ⟨rfl, by rw [hwc], ?_⟩
  show pyRound 1 (wind_chill_f (T * 9 / 5 + 32) (w * 0.621371)) = pyRound 1 (T * 9 / 5 + 32)
  unfold wind_chill_f
  rw [hwc]
  exact pyRound_idem 1 (T * 9 / 5 + 32)

/-- Witness for C10 at a concrete point of the band: `temperature_c = 0`
(Fahrenheit equivalent 32), `humidity = 50`, `wind_speed_kmh = 4.81`
(so `4.8 ≤ 4.81` and `4.81 * 0.621371 = 2.98879451 < 3`). -/
theorem C10_wind_chill_dead_band_witness :
    (calculate_feels_like 0 50 4.81).method_used = "Wind Chill" ∧
    (calculate_wind_chill (0 * 9 / 5 + 32) (4.81 * 0.621371)).applicable = false ∧
    (calculate_feels_like 0 50 4.81).feels_like_f = pyRound 1 (0 * 9 / 5 + 32) :=
  C10_wind_chill_dead_band 0 50 4.81 (by norm_num) (by norm_num) (by norm_num)

/-- Python's `int(x)` on a float: truncation toward zero. -/
noncomputable def pytrunc (x : ℝ) : ℤ :=
  if 0 ≤ x then ⌊x⌋ else ⌈x⌉

/-- Python's `f"{n:02d}"`: decimal rendering zero-padded to width 2. -/
def pad2 (n : ℤ) : String :=
  if 0 ≤ n ∧ n < 10 then "0" ++ toString n else toString n

/-- The nested `decimal_to_time` helper of `_sunrise_sunset_times`:
`hours = int(decimal_hour) % 24`, `minutes = int((decimal_hour -
int(decimal_hour)) * 60)`, rendered `f"{hours:02d}:{minutes:02d}"`
(Python's `%` on a positive modulus agrees with `Int.emod`). -/
noncomputable def decimal_to_time (decimal_hour : ℝ) : String :=
  pad2 (pytrunc decimal_hour % 24) ++ ":"
    ++ pad2 (pytrunc ((decimal_hour - ((pytrunc decimal_hour : ℤ) : ℝ)) * 60))

/-- The `result` object of `_sunrise_sunset_times`'s JSON payload. -/
structure SunriseSunsetResult where
  sunrise_utc : String
  sunset_utc : String
  condition : String

/-- The solar declination `P` of `_sunrise_sunset_times`:
`asin(0.39795 * cos(0.98563 * (day_of_year - 173) * pi / 180))`. -/
noncomputable def solar_declination (day_of_year : ℤ) : ℝ :=
  Real.arcsin (0.39795 * Real.cos (0.98563 * (((day_of_year : ℤ) : ℝ) - 173) * Real.pi / 180))

/-- The hour-angle `argument` of `_sunrise_sunset_times`:
`-tan(radians(latitude)) * tan(P)`. -/
noncomputable def hour_angle_argument (latitude : ℝ) (day_of_year : ℤ) : ℝ :=
  -Real.tan (latitude * Real.pi / 180) * Real.tan (solar_declination day_of_year)

/-- `_sunrise_sunset_times`: polar-day sentinels when the hour-angle argument
is `< -1`, polar-night sentinels when it is `> 1`, else the computed times. -/
noncomputable def sunrise_sunset_times (latitude longitude : ℝ) (day_of_year : ℤ) :
    SunriseSunsetResult :=
  if hour_angle_argument latitude day_of_year < -1 then
    ⟨"No sunset (polar day)", "No sunset (polar day)", "polar_day"⟩
  else if 1 < hour_angle_argument latitude day_of_year then
    ⟨"No sunrise (polar night)", "No sunrise (polar night)", "polar_night"⟩
  else
    ⟨decimal_to_time (12 - 24 * Real.arccos (hour_angle_argument latitude day_of_year)
        / (2 * Real.pi) - longitude / 15),
      decimal_to_time (12 + 24 * Real.arccos (hour_angle_argument latitude day_of_year)
        / (2 * Real.pi) - longitude / 15),
      "normal"⟩

/-- The internal `uv_index` value of `_uv_index_from_solar_elevation`, before
the output rounding: `0` for elevation `<= 0`, else `11 * sin(radians(e))`
scaled by the ozone factor `300 / max(ozone, 100)` and the cloud factor
`1 - (cloud/100) * 0.8`, clamped by `max(0, min(11, .))`. -/
noncomputable def uv_index_val (elevation ozone_thickness cloud_cover : ℝ) : ℝ :=
  if elevation ≤ 0 then 0
  else
    max 0 (min 11 (11 * Real.sin (elevation * Real.pi / 180)
      * (300 / max ozone_thickness 100) * (1 - cloud_cover / 100 * 0.8)))

/-- The `uv_index` field of `_uv_index_from_solar_elevation`'s JSON result:
`round(uv_index, 1)`. -/
noncomputable def uv_index (elevation ozone_thickness cloud_cover : ℝ) : ℝ :=
  pyRound 1 (uv_index_val elevation ozone_thickness cloud_cover)

/-- The `result` fields of `_saturation_vapor_pressure` the claims speak
about: the Tetens value `es` (in hPa, before rounding) and the `phase`. -/
structure SvpResult where
  es : ℝ
  phase : String

/-- `_saturation_vapor_pressure`: over-water constants when `T >= 0`,
over-ice constants when `T < 0`. -/
noncomputable def saturation_vapor_pressure (T : ℝ) : SvpResult :=
  if 0 ≤ T then ⟨6.1078 * Real.exp (17.27 * T / (T + 237.3)), "water"⟩
  else ⟨6.1078 * Real.exp (21.875 * T / (T + 265.5)), "ice"⟩

/-- C5: `_sunrise_sunset_times` yields exactly one of three variants, decided
by the hour-angle argument `-tan(lat)*tan(declination)`: the polar-day
sentinel strings when the argument is below `-1`, the polar-night sentinel
strings when it is above `1`, and otherwise the normal variant carrying the
computed sunrise and sunset time strings. -/
theorem C5_sunrise_sunset_variants (lat lon : ℝ) (day : ℤ) :
    (hour_angle_argument lat day < -1 →
      sunrise_sunset_times lat lon day =
        ⟨"No sunset (polar day)", "No sunset (polar day)", "polar_day"⟩) ∧
    (1 < hour_angle_argument lat day →
      sunrise_sunset_times lat lon day =
        ⟨"No sunrise (polar night)", "No sunrise (polar night)", "polar_night"⟩) ∧
    (-1 ≤ hour_angle_argument lat day → hour_angle_argument lat day ≤ 1 →
      sunrise_sunset_times lat lon day =
        ⟨decimal_to_time (12 - 24 * Real.arccos (hour_angle_argument lat day)
            / (2 * Real.pi) - lon / 15),
          decimal_to_time (12 + 24 * Real.arccos (hour_angle_argument lat day)
            / (2 * Real.pi) - lon / 15),
          "normal"⟩) := by
  unfold sunrise_sunset_times
  split_ifs with h1 h2
  · exact ⟨fun _ => rfl, fun h => absurd h (by linarith),
      fun h _ => absurd h (by linarith)⟩
  · exact ⟨fun h => absurd h h1, fun _ => rfl, fun _ h => absurd h (by linarith)⟩
  · exact ⟨fun h => absurd h h1, fun h => absurd h h2, fun _ _ => rfl⟩

/-- C6: `_uv_index_from_solar_elevation` returns `uv_index = 0` whenever the
solar elevation is `<= 0`, regardless of the ozone and cloud parameters, and
for every input the returned (rounded) `uv_index` lies in `[0, 11]`. -/
theorem C6_uv_index_bounds (e oz cc : ℝ) :
    (e ≤ 0 → uv_index e oz cc = 0) ∧ 0 ≤ uv_index e oz cc ∧ uv_index e oz cc ≤ 11 := by
  have hz : pyRound 1 (0:ℝ) = 0 := by simpa using pyRound_int 1 0
  have h11 : pyRound 1 (11:ℝ) = 11 := by simpa using pyRound_int 1 11
  unfold uv_index uv_index_val
  split_ifs with h
  · exact ⟨fun _ => hz, by rw [hz], by rw [hz]; norm_num⟩
  · refine ⟨fun he => absurd he h, ?_, ?_⟩
    · calc (0:ℝ) = pyRound 1 0 := hz.symm
        _ ≤ _ := pyRound_mono 1 (le_max_left _ _)
    · calc pyRound 1 (max 0 (min 11 (11 * Real.sin (e * Real.pi / 180)
            * (300 / max oz 100) * (1 - cc / 100 * 0.8))))
          ≤ pyRound 1 11 := pyRound_mono 1 (max_le (by norm_num) (min_le_left _ _))
        _ = 11 := h11

/-- C7: `_saturation_vapor_pressure` uses the over-water Tetens constants and
reports `phase = "water"` when `temperature_c >= 0`, and the over-ice
constants with `phase = "ice"` when `temperature_c < 0`; in particular at
`temperature_c = 0` the water branch is taken. -/
theorem C7_svp_phase_branch (T : ℝ) :
    (0 ≤ T → saturation_vapor_pressure T =
      ⟨6.1078 * Real.exp (17.27 * T / (T + 237.3)), "water"⟩) ∧
    (T < 0 → saturation_vapor_pressure T =
      ⟨6.1078 * Real.exp (21.875 * T / (T + 265.5)), "ice"⟩) ∧
    (saturation_vapor_pressure 0).phase = "water" := by
  refine ⟨fun h => ?_, fun h => ?_, ?_⟩
  · unfold saturation_vapor_pressure
    rw [if_pos h]
  · unfold saturation_vapor_pressure
    rw [if_neg (by linarith)]
  · unfold saturation_vapor_pressure
    rw [if_pos (by norm_num : (0:ℝ) ≤ 0)]

end WeatherCalc

namespace WeatherClients

/-- `_next_id` of both `WeatherCalculationsMCPClient` (stdio) and
`WeatherCalculationsHTTPClient`: `self.message_id += 1; return
self.message_id`, returning the new counter together with the new state. -/
def next_id (message_id : ℕ) : ℕ × ℕ :=
  (message_id + 1, message_id + 1)

/-- The request ids produced by `n` successive `send_message` calls (each
calls `_next_id` exactly once) starting from counter state `s`. -/
def ids_from (s : ℕ) : ℕ → List ℕ
  | 0 => []
  | n + 1 => (next_id s).2 :: ids_from (next_id s).1 n

/-- The request ids of a fresh client instance: both constructors initialise
`self.message_id = 0`. -/
def client_ids (n : ℕ) : List ℕ :=
  ids_from 0 n

theorem ids_from_eq (s n : ℕ) : ids_from s n = List.range' (s + 1) n := by
  induction n generalizing s with
  | zero => rfl
  | succ n ih => rw [ids_from, List.range', ih]; rfl

/-- C8: for either client, the ids of the first `n` requests are exactly the
strictly increasing sequence `1, 2, ..., n` — the session-local counter starts
at 1, each id is the previous plus one, and all pending ids are distinct. -/
theorem C8_client_ids_sequence (n : ℕ) :
    client_ids n = List.range' 1 n ∧ (client_ids n).Nodup := by
  have h : client_ids n = List.range' 1 n := ids_from_eq 0 n
  exact ⟨h, h ▸ List.nodup_range' _ _⟩

/-- The outcome of `call_tool` on a decoded JSON-RPC response: the unwrapped
`result`, a raised error carrying the server-supplied `error` value
(`RuntimeError(f"Tool call failed: {response['error']}")`), or the `KeyError`
raised when neither field is usable (`response["result"]` on a missing key). -/
inductive ToolCallOutcome (V : Type) where
  | ok (result : V)
  | toolError (err : V)
  | missingResult
deriving DecidableEq

/-- A decoded JSON-RPC response as `call_tool` inspects it: `error = none`
models both an absent `error` key and a JSON `null` value (both make Python's
`response.get("error") is not None` false), and likewise for `result`. -/
structure ToolCallResponse (V : Type) where
  error : Option V
  result : Option V

/-- `call_tool` of both clients: `if response.get("error") is not None: raise
...; return response["result"]`. -/
def call_tool {V : Type} (r : ToolCallResponse V) : ToolCallOutcome V :=
  match r.error with
  | some e => ToolCallOutcome.toolError e
  | none =>
    match r.result with
    | some v => ToolCallOutcome.ok v
    | none => ToolCallOutcome.missingResult

/-- C9: for every well-formed (decoded) response, `call_tool` raises an error
carrying the server-supplied error value exactly when the response has a
non-null `error` field, and when the `error` field is absent or null it
returns the response's `result` value unchanged. -/
theorem C9_call_tool_error_handling {V : Type} (r : ToolCallResponse V) :
    ((∃ e, call_tool r = ToolCallOutcome.toolError e) ↔ ∃ e, r.error = some e) ∧
    (∀ e, r.error = some e → call_tool r = ToolCallOutcome.toolError e) ∧
    (∀ v, r.error = none → r.result = some v → call_tool r = ToolCallOutcome.ok v) := by
  obtain ⟨err, res⟩ := r
  cases err <;> cases res <;> simp [call_tool]

end WeatherClients
